import Mathlib

/-!
Verification development for the EverythingSings static-site generator.

The source is a Rust crate that renders a single static HTML profile page.
We embed the content model (`src/lib.rs` module `config`, the link catalog in
`src/components/link_list.rs`), the rendering components
(`src/components/profile_card.rs`, `src/components/link_list.rs`,
`src/app.rs`), the head generator (`src/components/head.rs`), the document
assembler (`render_to_html` in `src/main.rs`), and the CLI dispatch
(`main` in `src/main.rs`).

Leptos `view!` templates are embedded as values of an `Html` element tree;
a serializer `renderHtml` mirrors `.to_html()` (attributes in source order,
boolean attributes rendered bare, children concatenated in order).  The head
generator is a raw format string in the source and is embedded as exact
string concatenation.  The site constants of `config` are threaded through an
explicit `SiteConfig` record; the source reads the same values as module
constants, and the concrete definitions (`generate_json_ld`,
`render_to_html`, ...) are the parameterized ones applied to `siteConfig`.
-/

namespace Site

/-- Site configuration: the constants of `src/lib.rs` module `config`. -/
structure SiteConfig where
  name : String
  url : String
  description : String
  avatarPath : String
deriving DecidableEq

/-- Embeds `SITE_NAME` from `src/lib.rs`. -/
def SITE_NAME : String := "EverythingSings"

/-- Embeds `SITE_DOMAIN` from `src/lib.rs`. -/
def SITE_DOMAIN : String := "everythingsings.art"

/-- Embeds `SITE_URL` from `src/lib.rs`. -/
def SITE_URL : String := "https://everythingsings.art"

/-- Embeds `SITE_DESCRIPTION` from `src/lib.rs`. -/
def SITE_DESCRIPTION : String :=
  "Formless art brand for the future. Exploring AI, art, and sovereign technology."

/-- Embeds `AVATAR_PATH` from `src/lib.rs`. -/
def AVATAR_PATH : String := "/avatar.png"

/-- The concrete site configuration assembled from the `config` constants. -/
def siteConfig : SiteConfig :=
  { name := SITE_NAME, url := SITE_URL, description := SITE_DESCRIPTION,
    avatarPath := AVATAR_PATH }

/-- Embeds `THEME_COLOR` from `src/components/head.rs`. -/
def THEME_COLOR : String := "#0d0d0d"

/-- Embeds `LinkEntry` from `src/components/link_list.rs`. -/
structure LinkEntry where
  label : String
  href : String
  description : Option String
deriving DecidableEq

/-- Embeds `LinkGroup` from `src/components/link_list.rs`. -/
structure LinkGroup where
  name : String
  links : List LinkEntry
deriving DecidableEq

/-- Embeds `LINK_GROUPS` from `src/components/link_list.rs`: the link catalog,
in declaration order. -/
def LINK_GROUPS : List LinkGroup := [
  { name := "Create",
    links := [
      { label := "Lumimenta", href := "https://lumimenta.everythingsings.art",
        description := some "Physical trading card photography series" },
      { label := "Sigil", href := "https://sigil.everythingsings.art",
        description := some "Explore Sigil" },
      { label := "Music", href := "https://music.apple.com/artist/1704503690",
        description := some "Listen on Apple Music" }] },
  { name := "Think",
    links := [
      { label := "Substack", href := "https://everythingsings.substack.com",
        description := some "Writing on AI, art, and technology" }] },
  { name := "Build",
    links := [
      { label := "GitHub", href := "https://github.com/EverythingSings",
        description := some "Code is art" },
      { label := "Sovereign Tools", href := "https://github.com/sovereign-composable-tools",
        description := some "Local-first tools for open protocols" }] },
  { name := "Support",
    links := [
      { label := "Shop", href := "https://bedim.redbubble.com",
        description := some "AI art prints and merchandise" }] },
  { name := "Connect",
    links := [
      { label := "Mastodon", href := "https://mastodon.social/@everythingsings",
        description := some "Follow on Mastodon" },
      { label := "Nostr",
        href := "https://primal.net/p/nprofile1qqsvxa6ez4lr32zrhk98xwj8pka3kjjy9v4c823m6pt4gvw8d49vfggjfvjru",
        description := some "Follow on Nostr" },
      { label := "X", href := "https://x.com/systemicwisdom_",
        description := some "Follow on X" }] }]

/-! ## HTML element trees

The Leptos `view!` macros build element trees; we embed them as `Html`
values.  Attribute order and the bare rendering of boolean attributes
(`itemscope`) follow the server-side `.to_html()` output the tests of the crate
assert against. -/

/-- An HTML fragment: an element with attributes and children, or text. -/
inductive Html where
  | elem (tag : String) (attrs : List (String × String)) (children : List Html)
  | text (s : String)

/-- Render one attribute; an empty value renders as a bare boolean attribute. -/
def renderAttr (a : String × String) : String :=
  if a.2 = "" then " " ++ a.1 else " " ++ a.1 ++ "=\"" ++ a.2 ++ "\""

/-- Fuel-indexed serializer for `Html` (fuel bounds the tree depth; every tree
in this development has depth below 32, and recursion on the fuel keeps the
definition kernel-reducible). -/
def renderHtmlF : Nat → Html → String
  | 0, _ => ""
  | _ + 1, .text s => s
  | n + 1, .elem t a c =>
    "<" ++ t ++ String.join (a.map renderAttr) ++ ">"
      ++ String.join (c.map (renderHtmlF n)) ++ "</" ++ t ++ ">"

/-- Serialize an `Html` tree, mirroring Leptos `.to_html()`. -/
def renderHtml (h : Html) : String := renderHtmlF 32 h

/-- Attributes of an element (empty for text nodes). -/
def attrsOf : Html → List (String × String)
  | .elem _ a _ => a
  | .text _ => []

/-- Look up an attribute value by key (first match, as in HTML). -/
def attrVal (attrs : List (String × String)) (k : String) : Option String :=
  (attrs.find? (fun p => p.1 == k)).map (fun p => p.2)

/-- Split a string on spaces into class tokens (accumulator-based,
structurally recursive so the kernel can evaluate it). -/
def splitTokensAux : List Char → List Char → List String
  | [], acc => [String.mk acc.reverse]
  | c :: t, acc =>
    if c = ' ' then String.mk acc.reverse :: splitTokensAux t []
    else splitTokensAux t (c :: acc)

/-- The class tokens of a `class` attribute value. -/
def classTokens (s : String) : List String := splitTokensAux s.data []

/-- Does this node carry the given class token in its `class` attribute? -/
def hasClassB (cls : String) (h : Html) : Bool :=
  match attrVal (attrsOf h) "class" with
  | some v => (classTokens v).contains cls
  | none => false

/-- Is this node an element with the given tag? -/
def isTagB (t : String) : Html → Bool
  | .elem tag _ _ => tag == t
  | .text _ => false

/-- Does this node carry the given `itemprop` attribute value? -/
def hasItempropB (p : String) (h : Html) : Bool :=
  attrVal (attrsOf h) "itemprop" == some p

/-- Fuel-indexed search for all nodes (in document order) satisfying a
predicate. -/
def findElemsF (p : Html → Bool) : Nat → Html → List Html
  | 0, _ => []
  | _ + 1, .text s => if p (.text s) then [.text s] else []
  | n + 1, .elem t a c =>
    (if p (.elem t a c) then [.elem t a c] else [])
      ++ (c.map (findElemsF p n)).foldr (fun x r => x ++ r) []

/-- All nodes of a tree satisfying a predicate, in document order. -/
def findElems (p : Html → Bool) (h : Html) : List Html := findElemsF p 32 h

/-- Fuel-indexed concatenation of all text content of a tree. -/
def textOfF : Nat → Html → String
  | 0, _ => ""
  | _ + 1, .text s => s
  | n + 1, .elem _ _ c => String.join (c.map (textOfF n))

/-- The concatenated text content of a tree. -/
def textOf (h : Html) : String := textOfF 32 h

/-! ## Components

Element trees transcribed from the `view!` templates of
`src/components/link_list.rs`, `src/components/profile_card.rs` and
`src/app.rs`, attributes in source order. -/

/-- Embeds `render_link` from `src/components/link_list.rs`: one `<li>` link item.
The anchor `title` is the description if present, else the label
(`link.description.unwrap_or(link.label)`); the description span is emitted
only when a description is present (`link.description.map(...)`). -/
def render_link (link : LinkEntry) : Html :=
  .elem "li" [("class", "link-item")]
    [.elem "a"
      [("href", link.href), ("rel", "me noopener"), ("itemprop", "sameAs"),
       ("class", "link-card"), ("title", link.description.getD link.label)]
      ([Html.elem "span" [("class", "link-label")] [.text link.label]]
        ++ (match link.description with
            | some desc => [Html.elem "span" [("class", "link-description")] [.text desc]]
            | none => []))]

/-- Embeds `render_group` from `src/components/link_list.rs`: a `<section>` with an
`<h2>` label and a `<ul>` of the links in the group. -/
def render_group (group : LinkGroup) : Html :=
  .elem "section" [("class", "link-group")]
    [.elem "h2" [("class", "link-group-label")] [.text group.name],
     .elem "ul" [] (group.links.map render_link)]

/-- Embeds `LinkList` from `src/components/link_list.rs`, parameterized by the
catalog: a `<nav>` containing each group of markup, in catalog order. -/
def LinkList_of (groups : List LinkGroup) : Html :=
  .elem "nav" [("class", "link-list"), ("aria-label", "Profile links")]
    (groups.map render_group)

/-- The `LinkList` component applied to the `LINK_GROUPS` catalog of the crate. -/
def LinkList : Html := LinkList_of LINK_GROUPS

/-- Embeds `ProfileCard` from `src/components/profile_card.rs`, parameterized by the
site identity: the h-card / Schema.org Person article. -/
def ProfileCard_of (cfg : SiteConfig) : Html :=
  .elem "article"
    [("class", "h-card profile-card"), ("itemscope", ""),
     ("itemtype", "https://schema.org/Person")]
    [.elem "a" [("href", cfg.url), ("class", "u-url"), ("rel", "me"), ("itemprop", "url")]
      [.elem "img"
        [("src", cfg.avatarPath), ("alt", cfg.name ++ " avatar"),
         ("class", "u-photo avatar"), ("itemprop", "image"),
         ("width", "128"), ("height", "128")] []],
     .elem "h1" [("class", "p-name"), ("itemprop", "name")] [.text cfg.name],
     .elem "p" [("class", "p-note"), ("itemprop", "description")] [.text cfg.description]]

/-- The `ProfileCard` component applied to the site constants of the crate. -/
def ProfileCard : Html := ProfileCard_of siteConfig

/-- Embeds `Body` from `src/app.rs`, parameterized by identity and catalog: the
`<body>` with WebPage microdata, shader canvas, noscript fallback, the main
container holding the profile card then the link list, and an empty footer. -/
def Body_of (cfg : SiteConfig) (groups : List LinkGroup) : Html :=
  .elem "body" [("itemscope", ""), ("itemtype", "https://schema.org/WebPage")]
    [.elem "canvas" [("id", "shader-canvas"), ("aria-hidden", "true")] [],
     .elem "noscript" []
       [.elem "style" []
         [.text "body \x7b background: linear-gradient(135deg, #0d0d0d 0%, #1a1a1a 50%, #0d0d0d 100%); \x7d"]],
     .elem "main" [("class", "container")] [ProfileCard_of cfg, LinkList_of groups],
     .elem "footer" [] []]

/-- Embeds `Body` applied to the crate-level constants. -/
def Body : Html := Body_of siteConfig LINK_GROUPS

/-- Embeds `App` from `src/app.rs`: renders exactly the `Body` component. -/
def App_of (cfg : SiteConfig) (groups : List LinkGroup) : Html := Body_of cfg groups

/-- Embeds `App` applied to the crate-level constants. -/
def App : Html := App_of siteConfig LINK_GROUPS

/-! ## Head generator

`src/components/head.rs` builds the head as a raw format string (Leptos
`view!` cannot emit the `property` attribute); the embedding is the exact
string concatenation of that template. -/

/-- Embeds `generate_json_ld` from `src/components/head.rs`, parameterized by the
identity: the Schema.org Person JSON-LD string, with `image` the site url
concatenated with the avatar path and an empty `sameAs` array. -/
def generate_json_ld_of (cfg : SiteConfig) : String :=
  "\x7b\n  \"@context\": \"https://schema.org\",\n  \"@type\": \"Person\",\n  \"name\": \""
    ++ cfg.name ++ "\",\n  \"url\": \"" ++ cfg.url ++ "\",\n  \"description\": \""
    ++ cfg.description ++ "\",\n  \"image\": \"" ++ cfg.url ++ cfg.avatarPath
    ++ "\",\n  \"sameAs\": []\n\x7d"

/-- Embeds `generate_json_ld` applied to the crate-level constants. -/
def generate_json_ld : String := generate_json_ld_of siteConfig

/-- Embeds `generate_head_html` from `src/components/head.rs`, parameterized by the
identity: the complete `<head>` markup, line for line from the format
string of the source. -/
def generate_head_html_of (cfg : SiteConfig) : String :=
  "<head>\n"
    ++ "<meta charset=\"utf-8\" />\n"
    ++ "<meta name=\"viewport\" content=\"width=device-width, initial-scale=1\" />\n"
    ++ "<title>" ++ cfg.name ++ " | Digital Artist</title>\n"
    ++ "<meta name=\"description\" content=\"" ++ cfg.description ++ "\" />\n"
    ++ "<link rel=\"canonical\" href=\"" ++ cfg.url ++ "\" />\n"
    ++ "<link rel=\"icon\" href=\"/favicon.ico\" sizes=\"32x32\" />\n"
    ++ "<link rel=\"icon\" href=\"/favicon.svg\" type=\"image/svg+xml\" />\n"
    ++ "<link rel=\"apple-touch-icon\" href=\"/apple-touch-icon.png\" />\n"
    ++ "<link rel=\"manifest\" href=\"/site.webmanifest\" />\n"
    ++ "<meta name=\"theme-color\" content=\"" ++ THEME_COLOR ++ "\" />\n"
    ++ "<meta property=\"og:type\" content=\"profile\" />\n"
    ++ "<meta property=\"og:title\" content=\"" ++ cfg.name ++ "\" />\n"
    ++ "<meta property=\"og:description\" content=\"" ++ cfg.description ++ "\" />\n"
    ++ "<meta property=\"og:url\" content=\"" ++ cfg.url ++ "\" />\n"
    ++ "<meta property=\"og:image\" content=\"" ++ cfg.url ++ cfg.avatarPath ++ "\" />\n"
    ++ "<meta name=\"twitter:card\" content=\"summary\" />\n"
    ++ "<meta name=\"twitter:title\" content=\"" ++ cfg.name ++ "\" />\n"
    ++ "<meta name=\"twitter:description\" content=\"" ++ cfg.description ++ "\" />\n"
    ++ "<meta name=\"twitter:image\" content=\"" ++ cfg.url ++ cfg.avatarPath ++ "\" />\n"
    ++ "<link rel=\"alternate\" type=\"application/rss+xml\" title=\"" ++ cfg.name
    ++ " RSS Feed\" href=\"/feed.xml\" />\n"
    ++ "<script type=\"application/ld+json\">" ++ generate_json_ld_of cfg ++ "</script>\n"
    ++ "<link rel=\"stylesheet\" href=\"/main.css\" />\n"
    ++ "<script src=\"/js/shader-bg.js\" defer></script>\n"
    ++ "</head>"

/-- Embeds `generate_head_html` applied to the crate-level constants. -/
def generate_head_html : String := generate_head_html_of siteConfig

/-! ## Document assembler and CLI (`src/main.rs`) -/

/-- Embeds `render_to_html` from `src/main.rs`, parameterized: doctype, the
`<html lang="en">` open tag, the head fragment, the rendered body, and the
closing `</html>`, concatenated exactly as in the source format string. -/
def render_to_html_of (cfg : SiteConfig) (groups : List LinkGroup) : String :=
  "<!DOCTYPE html>\n<html lang=\"en\">\n" ++ generate_head_html_of cfg ++ "\n"
    ++ renderHtml (App_of cfg groups) ++ "\n</html>"

/-- Embeds `render_to_html` applied to the crate-level constants. -/
def render_to_html : String := render_to_html_of siteConfig LINK_GROUPS

/-! ## String scanning utilities

Structurally recursive scanners over `List Char`, used to state properties
of the rendered markup (occurrence counts, first-occurrence positions,
delimited extraction) in a kernel-evaluable way. -/

/-- Number of occurrences of `pat` among the eight positions opened by
`s1` (`s1 = c1 :: s2`, ..., `s8 = c8 :: rest`). -/
def hits8 (pat s1 s2 s3 s4 s5 s6 s7 s8 : List Char) : Nat :=
  cond (pat.isPrefixOf s1) 1 0 + (cond (pat.isPrefixOf s2) 1 0
    + (cond (pat.isPrefixOf s3) 1 0 + (cond (pat.isPrefixOf s4) 1 0
    + (cond (pat.isPrefixOf s5) 1 0 + (cond (pat.isPrefixOf s6) 1 0
    + (cond (pat.isPrefixOf s7) 1 0 + cond (pat.isPrefixOf s8) 1 0))))))

/-- Does `pat` start at one of the eight positions opened by `s1`? -/
def any8 (pat s1 s2 s3 s4 s5 s6 s7 s8 : List Char) : Bool :=
  pat.isPrefixOf s1 || pat.isPrefixOf s2 || pat.isPrefixOf s3 || pat.isPrefixOf s4
    || pat.isPrefixOf s5 || pat.isPrefixOf s6 || pat.isPrefixOf s7 || pat.isPrefixOf s8

/-- Number of (possibly overlapping) occurrences of `pat` starting inside
`s`.  The scan consumes sixteen characters per recursive step and the
accumulator only grows when a block contains a match, keeping the
evaluation depth low enough for kernel and elaborator reduction over
multi-kilobyte strings. -/
def listCountAux : List Char → List Char → Nat → Nat
  | c1 :: c2 :: c3 :: c4 :: c5 :: c6 :: c7 :: c8 ::
      c9 :: c10 :: c11 :: c12 :: c13 :: c14 :: c15 :: c16 :: t, pat, acc =>
    let s16 := c16 :: t
    let s15 := c15 :: s16
    let s14 := c14 :: s15
    let s13 := c13 :: s14
    let s12 := c12 :: s13
    let s11 := c11 :: s12
    let s10 := c10 :: s11
    let s9 := c9 :: s10
    let s8 := c8 :: s9
    let s7 := c7 :: s8
    let s6 := c6 :: s7
    let s5 := c5 :: s6
    let s4 := c4 :: s5
    let s3 := c3 :: s4
    let s2 := c2 :: s3
    let s1 := c1 :: s2
    match any8 pat s1 s2 s3 s4 s5 s6 s7 s8, any8 pat s9 s10 s11 s12 s13 s14 s15 s16 with
    | false, false => listCountAux t pat acc
    | _, _ =>
      listCountAux t pat
        (acc + (hits8 pat s1 s2 s3 s4 s5 s6 s7 s8
          + hits8 pat s9 s10 s11 s12 s13 s14 s15 s16))
  | c :: t, pat, acc =>
    if pat.isPrefixOf (c :: t) then listCountAux t pat (acc + 1)
    else listCountAux t pat acc
  | [], _, acc => acc

/-- Number of occurrences of the pattern string in `s`. -/
def countSubstr (s pat : String) : Nat := listCountAux s.data pat.data 0

/-- Does `pat` start at some position of `s` (sixteen positions per step)? -/
def occursPat : List Char → List Char → Bool
  | c1 :: c2 :: c3 :: c4 :: c5 :: c6 :: c7 :: c8 ::
      c9 :: c10 :: c11 :: c12 :: c13 :: c14 :: c15 :: c16 :: t, pat =>
    let s16 := c16 :: t
    let s15 := c15 :: s16
    let s14 := c14 :: s15
    let s13 := c13 :: s14
    let s12 := c12 :: s13
    let s11 := c11 :: s12
    let s10 := c10 :: s11
    let s9 := c9 :: s10
    let s8 := c8 :: s9
    let s7 := c7 :: s8
    let s6 := c6 :: s7
    let s5 := c5 :: s6
    let s4 := c4 :: s5
    let s3 := c3 :: s4
    let s2 := c2 :: s3
    let s1 := c1 :: s2
    any8 pat s1 s2 s3 s4 s5 s6 s7 s8 || any8 pat s9 s10 s11 s12 s13 s14 s15 s16
      || occursPat t pat
  | c :: t, pat => pat.isPrefixOf (c :: t) || occursPat t pat
  | [], pat => pat.isEmpty

/-- One-position step of the before-ordering scan: `none` means neither
pattern starts here, `some r` decides the scan with result `r` (`rest` is
the list after the current position, used to look for `b` after `a`). -/
def stepBefore (a b s rest : List Char) : Option Bool :=
  if b.isPrefixOf s then some false
  else if a.isPrefixOf s then some (occursPat rest b)
  else none

/-- Does the first occurrence of `a` fall strictly before the first
occurrence of `b` (both must occur)?  Scans left to right, sixteen
positions per step: a position where `b` starts before `a` has started
refutes it; a position where `a` starts (and `b` does not) requires `b`
to start strictly later. -/
def firstBefore : List Char → List Char → List Char → Bool
  | c1 :: c2 :: c3 :: c4 :: c5 :: c6 :: c7 :: c8 ::
      c9 :: c10 :: c11 :: c12 :: c13 :: c14 :: c15 :: c16 :: t, a, b =>
    let s16 := c16 :: t
    let s15 := c15 :: s16
    let s14 := c14 :: s15
    let s13 := c13 :: s14
    let s12 := c12 :: s13
    let s11 := c11 :: s12
    let s10 := c10 :: s11
    let s9 := c9 :: s10
    let s8 := c8 :: s9
    let s7 := c7 :: s8
    let s6 := c6 :: s7
    let s5 := c5 :: s6
    let s4 := c4 :: s5
    let s3 := c3 :: s4
    let s2 := c2 :: s3
    let s1 := c1 :: s2
    match any8 a s1 s2 s3 s4 s5 s6 s7 s8 || any8 b s1 s2 s3 s4 s5 s6 s7 s8
        || any8 a s9 s10 s11 s12 s13 s14 s15 s16 || any8 b s9 s10 s11 s12 s13 s14 s15 s16 with
    | false => firstBefore t a b
    | true =>
      match stepBefore a b s1 s2 with
      | some r => r
      | none => match stepBefore a b s2 s3 with
        | some r => r
        | none => match stepBefore a b s3 s4 with
          | some r => r
          | none => match stepBefore a b s4 s5 with
            | some r => r
            | none => match stepBefore a b s5 s6 with
              | some r => r
              | none => match stepBefore a b s6 s7 with
                | some r => r
                | none => match stepBefore a b s7 s8 with
                  | some r => r
                  | none => match stepBefore a b s8 s9 with
                    | some r => r
                    | none => match stepBefore a b s9 s10 with
                      | some r => r
                      | none => match stepBefore a b s10 s11 with
                        | some r => r
                        | none => match stepBefore a b s11 s12 with
                          | some r => r
                          | none => match stepBefore a b s12 s13 with
                            | some r => r
                            | none => match stepBefore a b s13 s14 with
                              | some r => r
                              | none => match stepBefore a b s14 s15 with
                                | some r => r
                                | none => match stepBefore a b s15 s16 with
                                  | some r => r
                                  | none => match stepBefore a b s16 t with
                                    | some r => r
                                    | none => firstBefore t a b
  | c :: t, a, b =>
    match stepBefore a b (c :: t) t with
    | some r => r
    | none => firstBefore t a b
  | [], _, _ => false

/-- Does the first occurrence of `a` in `s` fall strictly before the first
occurrence of `b` in `s` (both occurring)? -/
def beforeIn (s a b : String) : Bool := firstBefore s.data a.data b.data

/-- Single-pass counter for four patterns at once (sixteen positions per
step; the four counters only change in a block containing a match). -/
def count4Aux : List Char → List Char → List Char → List Char → List Char →
    Nat → Nat → Nat → Nat → Nat × Nat × Nat × Nat
  | c1 :: c2 :: c3 :: c4 :: c5 :: c6 :: c7 :: c8 ::
      c9 :: c10 :: c11 :: c12 :: c13 :: c14 :: c15 :: c16 :: t,
    p1, p2, p3, p4, n1, n2, n3, n4 =>
    let s16 := c16 :: t
    let s15 := c15 :: s16
    let s14 := c14 :: s15
    let s13 := c13 :: s14
    let s12 := c12 :: s13
    let s11 := c11 :: s12
    let s10 := c10 :: s11
    let s9 := c9 :: s10
    let s8 := c8 :: s9
    let s7 := c7 :: s8
    let s6 := c6 :: s7
    let s5 := c5 :: s6
    let s4 := c4 :: s5
    let s3 := c3 :: s4
    let s2 := c2 :: s3
    let s1 := c1 :: s2
    match any8 p1 s1 s2 s3 s4 s5 s6 s7 s8 || any8 p1 s9 s10 s11 s12 s13 s14 s15 s16,
          any8 p2 s1 s2 s3 s4 s5 s6 s7 s8 || any8 p2 s9 s10 s11 s12 s13 s14 s15 s16,
          any8 p3 s1 s2 s3 s4 s5 s6 s7 s8 || any8 p3 s9 s10 s11 s12 s13 s14 s15 s16,
          any8 p4 s1 s2 s3 s4 s5 s6 s7 s8 || any8 p4 s9 s10 s11 s12 s13 s14 s15 s16 with
    | false, false, false, false => count4Aux t p1 p2 p3 p4 n1 n2 n3 n4
    | b1, b2, b3, b4 =>
      count4Aux t p1 p2 p3 p4
        (cond b1 (n1 + (hits8 p1 s1 s2 s3 s4 s5 s6 s7 s8
          + hits8 p1 s9 s10 s11 s12 s13 s14 s15 s16)) n1)
        (cond b2 (n2 + (hits8 p2 s1 s2 s3 s4 s5 s6 s7 s8
          + hits8 p2 s9 s10 s11 s12 s13 s14 s15 s16)) n2)
        (cond b3 (n3 + (hits8 p3 s1 s2 s3 s4 s5 s6 s7 s8
          + hits8 p3 s9 s10 s11 s12 s13 s14 s15 s16)) n3)
        (cond b4 (n4 + (hits8 p4 s1 s2 s3 s4 s5 s6 s7 s8
          + hits8 p4 s9 s10 s11 s12 s13 s14 s15 s16)) n4)
  | c :: t, p1, p2, p3, p4, n1, n2, n3, n4 =>
    count4Aux t p1 p2 p3 p4
      (if p1.isPrefixOf (c :: t) then n1 + 1 else n1)
      (if p2.isPrefixOf (c :: t) then n2 + 1 else n2)
      (if p3.isPrefixOf (c :: t) then n3 + 1 else n3)
      (if p4.isPrefixOf (c :: t) then n4 + 1 else n4)
  | [], _, _, _, _, n1, n2, n3, n4 => (n1, n2, n3, n4)

/-- Occurrence counts of four pattern strings in `s`, in one pass. -/
def count4 (s p1 p2 p3 p4 : String) : Nat × Nat × Nat × Nat :=
  count4Aux s.data p1.data p2.data p3.data p4.data 0 0 0 0

/-- Try to match the pending markers, in order, against the given list of
successive tail positions; returns the markers still pending. -/
def seqStep : List (List Char) → List (List Char) → List (List Char)
  | _, [] => []
  | [], ms => ms
  | s :: rest, m :: ms =>
    if m.isPrefixOf s then seqStep rest ms else seqStep rest (m :: ms)

/-- Do all markers occur in `s`, in the given order, at strictly increasing
positions?  Greedy single-pass scan, sixteen positions per step. -/
def seqScanAux : List Char → List (List Char) → Bool
  | _, [] => true
  | c1 :: c2 :: c3 :: c4 :: c5 :: c6 :: c7 :: c8 ::
      c9 :: c10 :: c11 :: c12 :: c13 :: c14 :: c15 :: c16 :: t, ms =>
    let s16 := c16 :: t
    let s15 := c15 :: s16
    let s14 := c14 :: s15
    let s13 := c13 :: s14
    let s12 := c12 :: s13
    let s11 := c11 :: s12
    let s10 := c10 :: s11
    let s9 := c9 :: s10
    let s8 := c8 :: s9
    let s7 := c7 :: s8
    let s6 := c6 :: s7
    let s5 := c5 :: s6
    let s4 := c4 :: s5
    let s3 := c3 :: s4
    let s2 := c2 :: s3
    let s1 := c1 :: s2
    match seqStep [s1, s2, s3, s4, s5, s6, s7, s8, s9, s10, s11, s12, s13, s14, s15, s16] ms with
    | [] => true
    | m :: rest => seqScanAux t (m :: rest)
  | c :: t, m :: ms =>
    if m.isPrefixOf (c :: t) then seqScanAux t ms else seqScanAux t (m :: ms)
  | [], _ :: _ => false

/-- Do all marker strings occur in `s`, in order, at strictly increasing
positions? -/
def seqScan (s : String) (ms : List String) : Bool :=
  seqScanAux s.data (ms.map String.data)

/-- Tail-recursive reversal, sixteen characters per step. -/
def rev16 : List Char → List Char → List Char
  | c1 :: c2 :: c3 :: c4 :: c5 :: c6 :: c7 :: c8 ::
      c9 :: c10 :: c11 :: c12 :: c13 :: c14 :: c15 :: c16 :: t, acc =>
    rev16 t (c16 :: c15 :: c14 :: c13 :: c12 :: c11 :: c10 :: c9 ::
      c8 :: c7 :: c6 :: c5 :: c4 :: c3 :: c2 :: c1 :: acc)
  | c :: t, acc => rev16 t (c :: acc)
  | [], acc => acc

/-- Does `s` end with `pat`? -/
def endsWith (s pat : String) : Bool :=
  (rev16 pat.data []).isPrefixOf (rev16 s.data [])

/-- The remainder of `s` after the first occurrence of `pat`, if any
(sixteen positions per step). -/
def afterPat : List Char → List Char → Option (List Char)
  | c1 :: c2 :: c3 :: c4 :: c5 :: c6 :: c7 :: c8 ::
      c9 :: c10 :: c11 :: c12 :: c13 :: c14 :: c15 :: c16 :: t, pat =>
    let s16 := c16 :: t
    let s15 := c15 :: s16
    let s14 := c14 :: s15
    let s13 := c13 :: s14
    let s12 := c12 :: s13
    let s11 := c11 :: s12
    let s10 := c10 :: s11
    let s9 := c9 :: s10
    let s8 := c8 :: s9
    let s7 := c7 :: s8
    let s6 := c6 :: s7
    let s5 := c5 :: s6
    let s4 := c4 :: s5
    let s3 := c3 :: s4
    let s2 := c2 :: s3
    let s1 := c1 :: s2
    match any8 pat s1 s2 s3 s4 s5 s6 s7 s8 || any8 pat s9 s10 s11 s12 s13 s14 s15 s16 with
    | false => afterPat t pat
    | true =>
      if pat.isPrefixOf s1 then some (s1.drop pat.length)
      else if pat.isPrefixOf s2 then some (s2.drop pat.length)
      else if pat.isPrefixOf s3 then some (s3.drop pat.length)
      else if pat.isPrefixOf s4 then some (s4.drop pat.length)
      else if pat.isPrefixOf s5 then some (s5.drop pat.length)
      else if pat.isPrefixOf s6 then some (s6.drop pat.length)
      else if pat.isPrefixOf s7 then some (s7.drop pat.length)
      else if pat.isPrefixOf s8 then some (s8.drop pat.length)
      else if pat.isPrefixOf s9 then some (s9.drop pat.length)
      else if pat.isPrefixOf s10 then some (s10.drop pat.length)
      else if pat.isPrefixOf s11 then some (s11.drop pat.length)
      else if pat.isPrefixOf s12 then some (s12.drop pat.length)
      else if pat.isPrefixOf s13 then some (s13.drop pat.length)
      else if pat.isPrefixOf s14 then some (s14.drop pat.length)
      else if pat.isPrefixOf s15 then some (s15.drop pat.length)
      else some (s16.drop pat.length)
  | c :: t, pat =>
    if pat.isPrefixOf (c :: t) then some ((c :: t).drop pat.length)
    else afterPat t pat
  | [], pat => if pat.isEmpty then some [] else none

/-- The characters of `s` strictly before the first occurrence of `pat`. -/
def takeUntilPat : List Char → List Char → List Char
  | [], _ => []
  | c :: t, pat =>
    if pat.isPrefixOf (c :: t) then [] else c :: takeUntilPat t pat

/-- The substring of `s` strictly between the first occurrence of `opening`
and the next occurrence of `closing` after it, if both are present. -/
def between (s opening closing : String) : Option String :=
  (afterPat s.data opening.data).map (fun r => String.mk (takeUntilPat r closing.data))

/-- Extract the string value of a top-level field of the generated JSON-LD:
the text between `"key": "` and the following quote.  (The generated values
contain no quotes, so this recovers the field exactly.) -/
def jsonField (json key : String) : Option String :=
  (afterPat json.data ("\"" ++ key ++ "\": \"").data).map
    (fun r => String.mk (r.takeWhile (fun c => c != '"')))

/-- Resolve a possibly root-relative URL against a base site URL, as a
crawler would: a path starting with `/` is joined to the base, an absolute
URL is kept. -/
def resolveAgainst (base rel : String) : String :=
  match rel.data with
  | '/' :: _ => base ++ rel
  | _ => rel

/-! ## Semantic extraction from the rendered trees

Recovery functions for the three encodings: Microformats2 classes and
Schema.org microdata are read off the `ProfileCard` element tree; JSON-LD
fields are read out of the generated JSON string via `jsonField`. -/

/-- The text of the first node with the given Microformats2 class. -/
def mf2Text (cls : String) (h : Html) : Option String :=
  (findElems (hasClassB cls) h).head?.map textOf

/-- The value of attribute `k` on the first node with the given
Microformats2 class. -/
def mf2Attr (cls k : String) (h : Html) : Option String :=
  (findElems (hasClassB cls) h).head?.bind (fun e => attrVal (attrsOf e) k)

/-- The text of the first node carrying the given microdata `itemprop`. -/
def microdataText (p : String) (h : Html) : Option String :=
  (findElems (hasItempropB p) h).head?.map textOf

/-- The value of attribute `k` on the first node carrying the given
microdata `itemprop`. -/
def microdataAttr (p k : String) (h : Html) : Option String :=
  (findElems (hasItempropB p) h).head?.bind (fun e => attrVal (attrsOf e) k)

/-! ## CLI model (`main` in `src/main.rs`) -/

/-- Observable outcome of one process run: exit status, lines printed to
the error stream, and files written under the output location. -/
structure ExecResult where
  exitCode : Nat
  stderr : List String
  filesWritten : List (String × String)
deriving DecidableEq

/-- The usage lines `print_usage` sends to stderr (`src/main.rs`). -/
def usageLines : List String :=
  ["Usage: everythingsings [OPTIONS]", "",
   "Options:",
   "  --generate-static  Generate static site to target/site/",
   "  --help             Show this help message"]

/-- Embeds `main` from `src/main.rs` over the argument vector (element 0 is the
program name, as in `env::args()`).  `ioOk` abstracts whether the
filesystem side of `generate_static_site` succeeds; on failure the document
write is not counted and the process exits 1 with the error reported (asset
copying, a side concern of the same branch, is not modelled).  Fewer than
two arguments, or an argument matching no arm, prints usage and exits 1;
`--help`/`-h` print usage and fall through to a normal exit 0. -/
def runMain (ioOk : Bool) (args : List String) : ExecResult :=
  if args.length < 2 then
    { exitCode := 1, stderr := usageLines, filesWritten := [] }
  else
    let a := args.getD 1 ""
    if a = "--generate-static" then
      if ioOk then
        { exitCode := 0, stderr := [],
          filesWritten := [("target/site/index.html", render_to_html)] }
      else
        { exitCode := 1, stderr := ["Error generating static site: <io error>"],
          filesWritten := [] }
    else if a = "--help" then
      { exitCode := 0, stderr := usageLines, filesWritten := [] }
    else if a = "-h" then
      { exitCode := 0, stderr := usageLines, filesWritten := [] }
    else
      { exitCode := 1, stderr := ("Unknown option: " ++ a) :: usageLines,
        filesWritten := [] }

/-- Children of an element (empty for text nodes). -/
def childrenOf : Html → List Html
  | .elem _ _ c => c
  | .text _ => []

/-- The exact markup of a group of `<h2>` label, used to locate a group
inside the rendered catalog. -/
def groupLabelMarker (g : LinkGroup) : String :=
  "<h2 class=\"link-group-label\">" ++ g.name ++ "</h2>"

/-- Does catalog group `i` appear strictly before group `i + 1` in the
rendered `LinkList` markup (located via their label markup)? -/
def groupOrderedB (i : Nat) : Bool :=
  beforeIn (renderHtml LinkList)
    (groupLabelMarker (LINK_GROUPS.getD i { name := "", links := [] }))
    (groupLabelMarker (LINK_GROUPS.getD (i + 1) { name := "", links := [] }))

/-- Does an anchor node carry `rel` containing the token `me` and
`itemprop="sameAs"`? -/
def anchorHasRelMeAndSameAs (h : Html) : Bool :=
  (match attrVal (attrsOf h) "rel" with
   | some v => (classTokens v).contains "me"
   | none => false)
  && (attrVal (attrsOf h) "itemprop" == some "sameAs")

end Site

namespace Site

set_option maxRecDepth 10000
set_option maxHeartbeats 2000000

/-! ## Theorems -/

/-- C1: Triple-encoding consistency for the site identity: the JSON-LD
Person object, the Microformats2 h-card classes (`p-name`, `p-note`,
`u-url`, `u-photo`), and the Schema.org microdata itemprops (`name`,
`description`, `url`, `image`) each expose the identity name,
description, url, and resolved image URL, and the values recovered from
the three encodings agree. -/
theorem tripleEncodingConsistent :
    (jsonField generate_json_ld "@type" = some "Person")
    ∧ (jsonField generate_json_ld "name" = some SITE_NAME
      ∧ mf2Text "p-name" ProfileCard = some SITE_NAME
      ∧ microdataText "name" ProfileCard = some SITE_NAME)
    ∧ (jsonField generate_json_ld "description" = some SITE_DESCRIPTION
      ∧ mf2Text "p-note" ProfileCard = some SITE_DESCRIPTION
      ∧ microdataText "description" ProfileCard = some SITE_DESCRIPTION)
    ∧ (jsonField generate_json_ld "url" = some SITE_URL
      ∧ mf2Attr "u-url" "href" ProfileCard = some SITE_URL
      ∧ microdataAttr "url" "href" ProfileCard = some SITE_URL)
    ∧ (jsonField generate_json_ld "image" = some (SITE_URL ++ AVATAR_PATH)
      ∧ (mf2Attr "u-photo" "src" ProfileCard).map (resolveAgainst SITE_URL)
          = some (SITE_URL ++ AVATAR_PATH)
      ∧ (microdataAttr "image" "src" ProfileCard).map (resolveAgainst SITE_URL)
          = some (SITE_URL ++ AVATAR_PATH)) := by
  decide

/-- C2: The head fragment contains exactly one JSON-LD script block; its
content is the generated JSON-LD, whose `@type` is `Person`, whose
`name`, `url`, `description`, `image` fields are non-empty, and whose
`image` equals the site url concatenated with the avatar path. -/
theorem headJsonLdBlock :
    countSubstr generate_head_html "<script type=\"application/ld+json\">" = 1
    ∧ between generate_head_html "<script type=\"application/ld+json\">" "</script>"
        = some generate_json_ld
    ∧ jsonField generate_json_ld "@type" = some "Person"
    ∧ jsonField generate_json_ld "name" = some SITE_NAME ∧ SITE_NAME ≠ ""
    ∧ jsonField generate_json_ld "url" = some SITE_URL ∧ SITE_URL ≠ ""
    ∧ jsonField generate_json_ld "description" = some SITE_DESCRIPTION
    ∧ SITE_DESCRIPTION ≠ ""
    ∧ jsonField generate_json_ld "image" = some (SITE_URL ++ AVATAR_PATH)
    ∧ SITE_URL ++ AVATAR_PATH ≠ "" := by
  decide

/-- C3: The catalog has 5 groups totaling 10 links; the rendered `LinkList`
fragment contains exactly 5 group containers and exactly 10 link items;
the group-container marker and the group-label marker use disjoint class
tokens, and counting the group-container markup in the output yields
exactly the number of groups. -/
theorem linkListGroupAndItemCounts :
    LINK_GROUPS.length = 5
    ∧ (LINK_GROUPS.map (fun g => g.links.length)).sum = 10
    ∧ (findElems (hasClassB "link-group") LinkList).length = 5
    ∧ (findElems (hasClassB "link-item") LinkList).length = 10
    ∧ countSubstr (renderHtml LinkList) "<section class=\"link-group\"" = 5
    ∧ countSubstr (renderHtml LinkList) "<h2 class=\"link-group-label\"" = 5
    ∧ (findElems
        (fun h => hasClassB "link-group" h && hasClassB "link-group-label" h)
        LinkList).length = 0
    ∧ (classTokens "link-group").contains "link-group-label" = false
    ∧ (classTokens "link-group-label").contains "link-group" = false := by
  decide

/-- C4: The rendered fragment preserves the catalog declaration order:
for any catalog, `LinkList` emits exactly the markup of the groups in catalog
order (no sorting), and in the rendered string each group of the concrete
catalog appears strictly before its successor. -/
theorem linkGroupsRenderInDeclarationOrder :
    (∀ groups : List LinkGroup,
        childrenOf (LinkList_of groups) = groups.map render_group)
    ∧ ∀ i : Fin 4, groupOrderedB i.val = true := by
  refine ⟨fun groups => rfl, by decide⟩

/-- C5: For every link, the rendered anchor `title` attribute is the
description if present, else the label; the anchor contains a
`link-description` span exactly when a description is present; and the
label span is always present. -/
theorem renderLinkTitleAndReveal (l : LinkEntry) :
    (findElems (isTagB "a") (render_link l)).map (fun h => attrVal (attrsOf h) "title")
      = [some (l.description.getD l.label)]
    ∧ (findElems (hasClassB "link-description") (render_link l)).length
        = (if (l.description).isSome then 1 else 0)
    ∧ (findElems (hasClassB "link-label") (render_link l)).length = 1 := by
  cases l with
  | mk lab href d => cases d <;> exact ⟨rfl, rfl, rfl⟩

/-- C6: Every anchor emitted by the link renderer — for an arbitrary link
and for all 10 anchors of the rendered catalog — carries `rel` containing
`me` and `itemprop="sameAs"`. -/
theorem allAnchorsRelMeSameAs :
    (∀ l : LinkEntry,
        ((findElems (isTagB "a") (render_link l)).all anchorHasRelMeAndSameAs) = true)
    ∧ ((findElems (isTagB "a") LinkList).all anchorHasRelMeAndSameAs = true)
    ∧ (findElems (isTagB "a") LinkList).length = 10 := by
  refine ⟨fun l => ?_, by decide, by decide⟩
  cases l with
  | mk lab href d => cases d <;> rfl

/-- C7: The assembled document starts with the doctype and the
`lang="en"` root open tag; everything after the single `</body>` is
exactly the closing `</html>`; the head open tag, body open tag, empty
footer and closing root tag each occur exactly once; and head close,
WebPage-scoped body open tag, profile fragment, link-catalog fragment,
empty footer and body close follow the head open tag in that order. -/
theorem documentAssemblyOrder :
    "<!DOCTYPE html>\n<html lang=\"en\">\n".data.isPrefixOf render_to_html.data = true
    ∧ afterPat render_to_html.data "</body>".data = some "\n</html>".data
    ∧ count4 render_to_html "<head>" "<body" "<footer></footer>" "</html>" = (1, 1, 1, 1)
    ∧ seqScan render_to_html
        ["<head>", "</head>", "<body itemscope itemtype=\"https://schema.org/WebPage\">",
         "<article class=\"h-card profile-card\"", "<nav class=\"link-list\"",
         "<footer></footer>", "</body>"] = true
    ∧ attrVal (attrsOf Body) "itemscope" = some ""
    ∧ attrVal (attrsOf Body) "itemtype" = some "https://schema.org/WebPage" := by
  refine ⟨?_, ?_, ?_, ?_, ?_, ?_⟩ <;> decide

/-- C8: Document assembly is deterministic: two invocations of the
rendering pipeline on equal content models produce identical strings. -/
theorem renderDeterministic (c₁ c₂ : SiteConfig) (g₁ g₂ : List LinkGroup)
    (hc : c₁ = c₂) (hg : g₁ = g₂) :
    render_to_html_of c₁ g₁ = render_to_html_of c₂ g₂ := by
  subst hc; subst hg; rfl

/-- Witness for C8 at the concrete content model of the crate. -/
theorem renderDeterministic_witness :
    render_to_html_of siteConfig LINK_GROUPS = render_to_html_of siteConfig LINK_GROUPS :=
  renderDeterministic siteConfig siteConfig LINK_GROUPS LINK_GROUPS rfl rfl

/-- C9: A missing argument or an unrecognized argument makes the program
print usage to the error stream, exit with status 1, and write no output
file. -/
theorem usageErrorBehavior (ioOk : Bool) (args : List String)
    (h : args.length < 2
      ∨ (2 ≤ args.length ∧ args.getD 1 "" ≠ "--generate-static"
          ∧ args.getD 1 "" ≠ "--help" ∧ args.getD 1 "" ≠ "-h")) :
    (runMain ioOk args).exitCode = 1
    ∧ usageLines <:+ (runMain ioOk args).stderr
    ∧ (runMain ioOk args).filesWritten = [] := by
  rcases h with h | ⟨h1, h2, h3, h4⟩
  · have e : runMain ioOk args
        = { exitCode := 1, stderr := usageLines, filesWritten := [] } := by
      simp only [runMain, if_pos h]
    rw [e]
    exact ⟨rfl, ⟨[], rfl⟩, rfl⟩
  · have e : runMain ioOk args
        = { exitCode := 1,
            stderr := ("Unknown option: " ++ args.getD 1 "") :: usageLines,
            filesWritten := [] } := by
      simp only [runMain, if_neg (by omega : ¬ args.length < 2),
        if_neg h2, if_neg h3, if_neg h4]
    rw [e]
    exact ⟨rfl, ⟨["Unknown option: " ++ args.getD 1 ""], rfl⟩, rfl⟩

/-- Witness for C9: invoking with the unrecognized argument `--bogus`. -/
theorem usageErrorBehavior_witness :
    (runMain true ["everythingsings", "--bogus"]).exitCode = 1
    ∧ usageLines <:+ (runMain true ["everythingsings", "--bogus"]).stderr
    ∧ (runMain true ["everythingsings", "--bogus"]).filesWritten = [] :=
  usageErrorBehavior true ["everythingsings", "--bogus"] (Or.inr (by decide))

/-- C10: Invoking the program with `--help` or `-h` prints usage and exits
with status 0, writing no files — regardless of trailing arguments or of
whether the filesystem would have cooperated. -/
theorem helpExitsZero (ioOk : Bool) (prog : String) (rest : List String) :
    runMain ioOk (prog :: "--help" :: rest)
        = { exitCode := 0, stderr := usageLines, filesWritten := [] }
    ∧ runMain ioOk (prog :: "-h" :: rest)
        = { exitCode := 0, stderr := usageLines, filesWritten := [] } := by
  constructor <;> rfl

end Site
